import Mathlib

/-!
# Verification of `leakyvec` — raw-parts decomposition/reconstruction of a vector

Shallow embedding of `src/include/leakyvec/leakyvec.hpp` (`leaky::detail::VecWrapper`
and `leaky::Vec`).  The wrapper holds a `std::vector<T, Alloc>` whose libstdc++
representation is (optionally an embedded allocator instance, then) three
pointer-sized control fields: `_M_start`, `_M_finish`, `_M_end_of_storage`.
We model pointers as natural-number addresses in element units, with `0` playing
the role of `nullptr`; all states exercised by the claims satisfy
`_M_start ≤ _M_finish ≤ _M_end_of_storage`, where C++ pointer subtraction and
Lean's truncated `Nat` subtraction agree.

Each raw field store performed by a setter is recorded as a `FieldWrite` event so
that the program order of the stores (which the spec constrains) is part of the
model, and each interaction with the allocator is recorded as an `AllocCall`
event so that "no allocation happens" claims are expressible.
-/

set_option autoImplicit false

namespace Leaky

/-- A pointer, as an address in element-sized units; `0` is the null pointer. -/
abbrev Ptr := Nat

/-- The null pointer (`nullptr`). -/
def nullPtr : Ptr := 0

/-- The state of a `leaky::detail::VecWrapper<T, Alloc>`: its single member
`inner : std::vector<T, Alloc>`, given by the embedded allocator value and the
three control fields of the libstdc++ representation. -/
structure VecWrapper (α : Type) where
  /-- the allocator instance associated with the vector (`inner.get_allocator()`) -/
  alloc : α
  /-- `_M_start`: the data-start control field -/
  mStart : Ptr
  /-- `_M_finish`: the data-end control field (one past the last initialized element) -/
  mFinish : Ptr
  /-- `_M_end_of_storage`: the capacity-end control field (one past the allocation) -/
  mEndOfStorage : Ptr
deriving DecidableEq

/-- Which of the three control fields a raw store wrote. -/
inductive ControlField : Type where
  | dataStart
  | dataEnd
  | capacityEnd
deriving DecidableEq

/-- One raw store through a computed field address: which control field was
written and the pointer value stored there. -/
structure FieldWrite where
  fld : ControlField
  value : Ptr
deriving DecidableEq

/-- A call made to the allocator. -/
inductive AllocCall : Type where
  | allocate (n : Nat)
  | deallocate (p : Ptr) (n : Nat)
deriving DecidableEq

namespace VecWrapper

variable {α : Type}

/-- `inner.data()`: in libstdc++ this returns `_M_start`. -/
def data (v : VecWrapper α) : Ptr := v.mStart

/-- `inner.size()`: in libstdc++ this is `_M_finish - _M_start` (pointer
difference in element units). -/
def size (v : VecWrapper α) : Nat := v.mFinish - v.mStart

/-- `inner.capacity()`: in libstdc++ this is `_M_end_of_storage - _M_start`. -/
def capacity (v : VecWrapper α) : Nat := v.mEndOfStorage - v.mStart

/-- `get_data_start()`: `return inner.data();` -/
def get_data_start (v : VecWrapper α) : Ptr := v.data

/-- `get_data_end()`: `return get_data_start() + inner.size();` -/
def get_data_end (v : VecWrapper α) : Ptr := v.get_data_start + v.size

/-- `get_capacity_end()`: `return get_data_start() + inner.capacity();` -/
def get_capacity_end (v : VecWrapper α) : Ptr := v.get_data_start + v.capacity

/-- `unsafe_set_data_start(new_start)`: stores `new_start` through
`get_data_start_ptr()` (the raw word at offset `LayoutOffset + 0`), i.e. sets
`_M_start`.  Returns the new state and the single raw field store performed.
(The `LEAKY_DEBUG_ASSERT` layout cross-checks are identities in this model,
where the field addresses are taken to be correctly located.) -/
def set_data_start (v : VecWrapper α) (new_start : Ptr) : VecWrapper α × FieldWrite :=
  ({ v with mStart := new_start }, ⟨ControlField.dataStart, new_start⟩)

/-- `unsafe_set_size(new_size)`: stores `get_data_start() + new_size` through
`get_data_end_ptr()` (the raw word at offset `LayoutOffset + 1`), i.e. sets
`_M_finish := _M_start + new_size`. -/
def set_size (v : VecWrapper α) (new_size : Nat) : VecWrapper α × FieldWrite :=
  ({ v with mFinish := v.get_data_start + new_size },
   ⟨ControlField.dataEnd, v.get_data_start + new_size⟩)

/-- `unsafe_set_capacity(new_capacity)`: stores `get_data_start() + new_capacity`
through `get_capacity_end_ptr()` (the raw word at offset `LayoutOffset + 2`),
i.e. sets `_M_end_of_storage := _M_start + new_capacity`. -/
def set_capacity (v : VecWrapper α) (new_capacity : Nat) : VecWrapper α × FieldWrite :=
  ({ v with mEndOfStorage := v.get_data_start + new_capacity },
   ⟨ControlField.capacityEnd, v.get_data_start + new_capacity⟩)

/-- The `(pointer, size, capacity, allocator)` tuple returned by
`leak_into_parts` / consumed by `unsafe_from_parts`. -/
structure PartsTuple (α : Type) where
  ptr : Ptr
  len : Nat
  cap : Nat
  alloc : α
deriving DecidableEq

/-- Result of `leak_into_parts`: the returned tuple, the wrapper state after the
call, the raw field stores in program order, and the allocator calls made. -/
structure LeakResult (α : Type) where
  parts : PartsTuple α
  state : VecWrapper α
  writes : List FieldWrite
  allocCalls : List AllocCall
deriving DecidableEq

/-- `leak_into_parts()`: reads `inner.data()`, `inner.size()`, `inner.capacity()`
and `inner.get_allocator()` (a copy of the allocator; no allocator call), builds
the return tuple, then performs, in program order,
`unsafe_set_data_start(nullptr); unsafe_set_size(0); unsafe_set_capacity(0);`
and returns the tuple.  No call to the allocator occurs anywhere in the body. -/
def leak_into_parts (v : VecWrapper α) : LeakResult α :=
  let data_start := v.data
  let sz := v.size
  let cap := v.capacity
  let retval : PartsTuple α := ⟨data_start, sz, cap, v.alloc⟩
  let r1 := v.set_data_start nullPtr
  let r2 := r1.1.set_size 0
  let r3 := r2.1.set_capacity 0
  ⟨retval, r3.1, [r1.2, r2.2, r3.2], []⟩

/-- Modelled from the spec: constructing an empty `std::vector<T, Alloc>(alloc)`
— the allocator-only constructor used by `unsafe_from_parts` — "performs no
allocation — constructing an empty buffer never allocates" (spec §4.2), and the
resulting vector is in the canonical empty state (null pointer, zero length,
zero capacity).  `std::vector` itself is external to this repository and is
treated by the spec as an already-correct black box. -/
def constructEmpty (a : α) : VecWrapper α × List AllocCall :=
  (⟨a, nullPtr, nullPtr, nullPtr⟩, [])

/-- Result of `unsafe_from_parts`: the constructed wrapper state, the raw field
stores in program order, and the allocator calls made. -/
structure FromPartsResult (α : Type) where
  state : VecWrapper α
  writes : List FieldWrite
  allocCalls : List AllocCall
deriving DecidableEq

/-- `unsafe_from_parts(data_start, size, capacity, alloc)`: constructs
`VecWrapper{std::vector<T, Alloc>(alloc)}` (an empty vector holding the given
allocator), then performs, in program order,
`unsafe_set_data_start(data_start); unsafe_set_size(size); unsafe_set_capacity(capacity);`
and returns the wrapper. -/
def from_parts (data_start : Ptr) (sz cap : Nat) (a : α) : FromPartsResult α :=
  let e := constructEmpty a
  let r1 := e.1.set_data_start data_start
  let r2 := r1.1.set_size sz
  let r3 := r2.1.set_capacity cap
  ⟨r3.1, [r1.2, r2.2, r3.2], e.2⟩

/-- The tuple overload `unsafe_from_parts(std::tuple<...> parts)`: forwards the
tuple's components to the four-argument overload. -/
def from_parts_tuple (parts : PartsTuple α) : FromPartsResult α :=
  from_parts parts.ptr parts.len parts.cap parts.alloc

/-- Modelled from the spec: destroying a `std::vector` in the canonical empty
state (null data pointer, zero capacity) "is inert" / "performs no
deallocation" (spec §3, §4.2); destroying a vector that owns a block
deallocates that block through its allocator.  libstdc++'s destructor
deallocates `[_M_start, _M_end_of_storage)` whenever `_M_start` is non-null. -/
def destroy (v : VecWrapper α) : List AllocCall :=
  if v.mStart = nullPtr then [] else [AllocCall.deallocate v.mStart v.capacity]

end VecWrapper

/-- `get_data_ptr_offset<A, D>()`: the word count (`LayoutOffset`) preceding the
three control fields inside the `std::vector` representation.  The SFINAE pair
of overloads selects on whether `Alloc` is the default `std::allocator<T>`:
the default allocator is not stored in the vector, so the offset is `0`;
any other allocator is stored at the beginning of the vector, giving offset
`sizeof(Alloc) / sizeof(pointer)` (integer division, in words not bytes).
The result depends only on the types (here: on `isDefaultAlloc` and the two
sizes), never on a wrapper's runtime state — it is a compile-time constant. -/
def get_data_ptr_offset (isDefaultAlloc : Bool) (sizeofAlloc ptrSize : Nat) : Nat :=
  if isDefaultAlloc then 0 else sizeofAlloc / ptrSize

/-- The `static_assert` guarding each `get_data_ptr_offset` overload:
`sizeof(inner) == 3 * sizeof(pointer)` for the default allocator, and
`sizeof(inner) == sizeof(Alloc) + 3 * sizeof(pointer)` otherwise.  All sizes in
bytes. -/
def layout_assert_holds (isDefaultAlloc : Bool) (sizeofInner sizeofAlloc ptrSize : Nat) : Bool :=
  if isDefaultAlloc then sizeofInner == 3 * ptrSize
  else sizeofInner == sizeofAlloc + 3 * ptrSize

/-- `get_data_ptr_offset` together with its compile-time structural
precondition: the offset is produced only when the `static_assert` on the size
of the representation holds; otherwise the build fails (`none`). -/
def get_data_ptr_offset_checked (isDefaultAlloc : Bool)
    (sizeofInner sizeofAlloc ptrSize : Nat) : Option Nat :=
  if layout_assert_holds isDefaultAlloc sizeofInner sizeofAlloc ptrSize then
    some (get_data_ptr_offset isDefaultAlloc sizeofAlloc ptrSize)
  else none

end Leaky

/-! ## Theorems about the raw-parts protocol -/

namespace Leaky

open VecWrapper

/-- C1.  Round trip: for every vector `v` with length `l` and capacity `c`
(`l ≤ c`), leaking a wrapper built from `v` into a parts tuple and then
reconstructing a wrapper via `unsafe_from_parts` from that tuple yields a
wrapper whose data-start, data-end, and capacity-end control fields are
bit-identical to `v`'s original three pointers. -/
theorem round_trip_leak_then_from_parts {α : Type} (v : VecWrapper α) (l c : Nat)
    (hl : v.mFinish = v.mStart + l) (hc : v.mEndOfStorage = v.mStart + c)
    (hlc : l ≤ c) :
    (from_parts_tuple (v.leak_into_parts).parts).state.mStart = v.mStart ∧
    (from_parts_tuple (v.leak_into_parts).parts).state.mFinish = v.mFinish ∧
    (from_parts_tuple (v.leak_into_parts).parts).state.mEndOfStorage = v.mEndOfStorage := by
  simp [leak_into_parts, from_parts_tuple, from_parts, constructEmpty, set_data_start,
    set_size, set_capacity, get_data_start, data, size, capacity, hl, hc]

/-- C1 witness: the round trip at a concrete wrapper with data block at
address 100, length 4, capacity 10. -/
theorem round_trip_leak_then_from_parts_witness :
    ((⟨(), 100, 104, 110⟩ : VecWrapper Unit).mFinish = (100 : Nat) + 4 ∧
     (⟨(), 100, 104, 110⟩ : VecWrapper Unit).mEndOfStorage = (100 : Nat) + 10 ∧
     (4 : Nat) ≤ 10) ∧
    ((from_parts_tuple ((⟨(), 100, 104, 110⟩ : VecWrapper Unit).leak_into_parts).parts).state.mStart
        = (100 : Ptr) ∧
     (from_parts_tuple ((⟨(), 100, 104, 110⟩ : VecWrapper Unit).leak_into_parts).parts).state.mFinish
        = (104 : Ptr) ∧
     (from_parts_tuple ((⟨(), 100, 104, 110⟩ : VecWrapper Unit).leak_into_parts).parts).state.mEndOfStorage
        = (110 : Ptr)) :=
  ⟨⟨rfl, rfl, by decide⟩,
    round_trip_leak_then_from_parts (⟨(), 100, 104, 110⟩ : VecWrapper Unit) 4 10
      rfl rfl (by decide)⟩

/-- The sequence of control fields written by `leak_into_parts`, in program
order. -/
def leakWriteOrder {α : Type} (v : VecWrapper α) : List ControlField :=
  (v.leak_into_parts).writes.map FieldWrite.fld

/-- C2 counterexample: at a concrete wrapper, `leak_into_parts` does NOT write
the fields in the order (capacity-end, data-end, data-start) the claim states:
the first field written is data-start, not capacity-end. -/
theorem leak_write_order_claim_counterexample :
    ¬ (leakWriteOrder (⟨(), 100, 104, 110⟩ : VecWrapper Unit) =
        [ControlField.capacityEnd, ControlField.dataEnd, ControlField.dataStart]) := by
  decide

/-- C2 amended.  Order of field writes in leak: after reading pointer, length,
capacity and copying the allocator, `leak_into_parts` writes the wrapper's three
control fields in this exact order: first the data-start field (set to null),
then the data-end field, and finally the capacity-end field — the latter two
values being computed as the freshly nulled data-start plus zero, so all three
stores write null. -/
theorem leak_write_order {α : Type} (v : VecWrapper α) :
    (v.leak_into_parts).writes =
      [⟨ControlField.dataStart, nullPtr⟩, ⟨ControlField.dataEnd, nullPtr⟩,
       ⟨ControlField.capacityEnd, nullPtr⟩] := by
  simp [leak_into_parts, set_data_start, set_size, set_capacity, get_data_start, data, nullPtr]

/-- C3.  Postcondition of leak: after `leak_into_parts` returns, the wrapper's
internal vector is in the canonical empty state — data-start is the null
pointer, size (data-end minus data-start) is zero, and capacity (capacity-end
minus data-start) is zero — so its subsequent destruction performs no
deallocation. -/
theorem leak_leaves_empty_state {α : Type} (v : VecWrapper α) :
    (v.leak_into_parts).state.mStart = nullPtr ∧
    (v.leak_into_parts).state.size = 0 ∧
    (v.leak_into_parts).state.capacity = 0 ∧
    destroy (v.leak_into_parts).state = [] := by
  simp [leak_into_parts, set_data_start, set_size, set_capacity, get_data_start, data,
    size, capacity, destroy, nullPtr]

/-- C4.  Postcondition and write order of `unsafe_from_parts`: for every pointer
`p`, length `l`, capacity `c`, and allocator `a`, `unsafe_from_parts p l c a`
constructs an empty vector with allocator `a` and then writes data-start = `p`
first, then data-end = `p + l`, then capacity-end = `p + c`, in that order,
producing a wrapper whose three control fields are exactly the tuple's pointer,
length, and capacity. -/
theorem from_parts_state_and_write_order {α : Type} (p : Ptr) (l c : Nat) (a : α) :
    (from_parts p l c a).state = ⟨a, p, p + l, p + c⟩ ∧
    (from_parts p l c a).writes =
      [⟨ControlField.dataStart, p⟩, ⟨ControlField.dataEnd, p + l⟩,
       ⟨ControlField.capacityEnd, p + c⟩] := by
  constructor <;>
    simp [from_parts, constructEmpty, set_data_start, set_size, set_capacity,
      get_data_start, data, nullPtr]

/-- C5.  No extra allocation: `leak_into_parts` followed immediately by
`unsafe_from_parts` on the returned tuple triggers no `allocate` call on the
associated allocator — neither operation ever invokes the allocator's
`allocate`. -/
theorem no_allocate_in_leak_and_from_parts {α : Type} (v : VecWrapper α) :
    (∀ n, AllocCall.allocate n ∉ (v.leak_into_parts).allocCalls) ∧
    (∀ n, AllocCall.allocate n ∉ (from_parts_tuple (v.leak_into_parts).parts).allocCalls) := by
  constructor <;> intro n <;>
    simp [leak_into_parts, from_parts_tuple, from_parts, constructEmpty,
      set_data_start, set_size, set_capacity]

/-- C6.  Layout offset values: the computed `LayoutOffset` (word count preceding
the three control fields) equals `0` when the allocator is the default one that
is not embedded, and equals `sizeof(allocator) / sizeof(pointer)` — i.e. `k` for
an allocator of size `k` pointer-widths — otherwise.  The offset is a function
of the types alone (it takes no wrapper state), reflecting that it is a
compile-time constant. -/
theorem layout_offset_values (sizeofAlloc ptrSize k : Nat) (hps : 0 < ptrSize)
    (hk : sizeofAlloc = k * ptrSize) :
    get_data_ptr_offset true sizeofAlloc ptrSize = 0 ∧
    get_data_ptr_offset false sizeofAlloc ptrSize = sizeofAlloc / ptrSize ∧
    get_data_ptr_offset false sizeofAlloc ptrSize = k := by
  subst hk
  refine ⟨rfl, rfl, ?_⟩
  simp [get_data_ptr_offset, Nat.mul_div_cancel _ hps]

/-- C6 witness: an allocator of 16 bytes on a platform with 8-byte pointers is
two pointer-widths, giving offset 2; the default allocator gives offset 0. -/
theorem layout_offset_values_witness :
    ((0 : Nat) < 8 ∧ (16 : Nat) = 2 * 8) ∧
    (get_data_ptr_offset true 16 8 = 0 ∧
     get_data_ptr_offset false 16 8 = 16 / 8 ∧
     get_data_ptr_offset false 16 8 = 2) :=
  ⟨⟨by decide, by decide⟩, layout_offset_values 16 8 2 (by decide) (by decide)⟩

/-- C7.  Compile-time structural precondition: the layout-offset computation is
accepted only when the representation's size matches the assumed size — exactly
`3 * sizeof(pointer)` bytes for the default, non-embedded allocator, or
`sizeof(Alloc) + 3 * sizeof(pointer)` bytes (i.e. `LayoutOffset + 3` words)
otherwise; on a mismatch the build fails (`none`) rather than computing a wrong
offset, and whenever an offset is produced the total size in words equals that
offset plus 3. -/
theorem layout_assert_gates_offset (d : Bool) (si sa ps : Nat) (hps : 0 < ps) :
    ((∃ off, get_data_ptr_offset_checked d si sa ps = some off) ↔
      ((d = true ∧ si = 3 * ps) ∨ (d = false ∧ si = sa + 3 * ps))) ∧
    (∀ off, get_data_ptr_offset_checked d si sa ps = some off → si / ps = off + 3) := by
  cases d
  · constructor
    · simp [get_data_ptr_offset_checked, layout_assert_holds]
    · intro off h
      simp [get_data_ptr_offset_checked, layout_assert_holds, get_data_ptr_offset] at h
      obtain ⟨hsi, hoff⟩ := h
      subst hsi
      rw [Nat.add_mul_div_right _ _ hps, hoff]
  · constructor
    · simp [get_data_ptr_offset_checked, layout_assert_holds]
    · intro off h
      simp [get_data_ptr_offset_checked, layout_assert_holds, get_data_ptr_offset] at h
      obtain ⟨hsi, hoff⟩ := h
      subst hsi
      rw [Nat.mul_div_cancel _ hps, ← hoff]

/-- C7 witness: with 8-byte pointers and a 16-byte allocator, the non-default
overload is accepted exactly at a 40-byte representation (5 words = offset 2
plus 3), and 40 / 8 = 2 + 3. -/
theorem layout_assert_gates_offset_witness :
    ((0 : Nat) < 8) ∧
    ((∃ off, get_data_ptr_offset_checked false 40 16 8 = some off) ↔
      ((false = true ∧ (40 : Nat) = 3 * 8) ∨ (false = false ∧ (40 : Nat) = 16 + 3 * 8))) ∧
    (∀ off, get_data_ptr_offset_checked false 40 16 8 = some off → 40 / 8 = off + 3) :=
  ⟨by decide, layout_assert_gates_offset false 40 16 8 (by decide)⟩

/-- C8.  Shrink/grow frame property: for a wrapper with length 4 and capacity
10, calling `unsafe_set_capacity(3)` and then `unsafe_set_capacity(10)`,
without touching data-start, restores the capacity-end field to its original
address and leaves the data-end field and the data-start field unchanged from
their original values. -/
theorem shrink_grow_capacity_frame {α : Type} (v : VecWrapper α)
    (hlen : v.mFinish = v.mStart + 4) (hcap : v.mEndOfStorage = v.mStart + 10) :
    ((v.set_capacity 3).1.set_capacity 10).1.mEndOfStorage = v.mEndOfStorage ∧
    ((v.set_capacity 3).1.set_capacity 10).1.mFinish = v.mFinish ∧
    ((v.set_capacity 3).1.set_capacity 10).1.mStart = v.mStart := by
  simp [set_capacity, get_data_start, data, hcap]

/-- C8 witness: the shrink/grow sequence at a concrete wrapper with data block
at address 100, length 4, capacity 10. -/
theorem shrink_grow_capacity_frame_witness :
    ((⟨(), 100, 104, 110⟩ : VecWrapper Unit).mFinish = (100 : Nat) + 4 ∧
     (⟨(), 100, 104, 110⟩ : VecWrapper Unit).mEndOfStorage = (100 : Nat) + 10) ∧
    ((((⟨(), 100, 104, 110⟩ : VecWrapper Unit).set_capacity 3).1.set_capacity 10).1.mEndOfStorage
        = (110 : Ptr) ∧
     (((⟨(), 100, 104, 110⟩ : VecWrapper Unit).set_capacity 3).1.set_capacity 10).1.mFinish
        = (104 : Ptr) ∧
     (((⟨(), 100, 104, 110⟩ : VecWrapper Unit).set_capacity 3).1.set_capacity 10).1.mStart
        = (100 : Ptr)) :=
  ⟨⟨rfl, rfl⟩,
    shrink_grow_capacity_frame (⟨(), 100, 104, 110⟩ : VecWrapper Unit) rfl rfl⟩

/-- C9.  Reverse round trip: for every pointer `p`, sizes `l` and `c` with
`l ≤ c`, and allocator `a`, calling `leak_into_parts` on the wrapper produced by
`unsafe_from_parts p l c a` returns exactly the tuple `(p, l, c, a)` —
`from_parts` followed by `leak` is the identity on parts tuples. -/
theorem from_parts_then_leak_identity {α : Type} (p : Ptr) (l c : Nat) (a : α)
    (hlc : l ≤ c) :
    ((from_parts p l c a).state.leak_into_parts).parts = ⟨p, l, c, a⟩ := by
  simp [from_parts, constructEmpty, set_data_start, set_size, set_capacity, get_data_start,
    data, leak_into_parts, size, capacity]

/-- C9 witness: the reverse round trip at pointer 5, length 2, capacity 3. -/
theorem from_parts_then_leak_identity_witness :
    ((2 : Nat) ≤ 3) ∧
    ((from_parts 5 2 3 ()).state.leak_into_parts).parts = ⟨5, 2, 3, ()⟩ :=
  ⟨by decide, from_parts_then_leak_identity 5 2 3 () (by decide)⟩

/-- C10.  Single-field setter frame property: each unsafe setter writes exactly
one control field and leaves the other two raw fields unchanged —
`unsafe_set_size n` sets only the data-end field (to data-start + `n`), leaving
data-start and capacity-end unchanged; `unsafe_set_capacity m` sets only the
capacity-end field (to data-start + `m`), leaving data-start and data-end
unchanged; `unsafe_set_data_start p` sets only the data-start field, leaving the
raw data-end and capacity-end fields unchanged. -/
theorem setter_frame_properties {α : Type} (v : VecWrapper α) (n m : Nat) (p : Ptr) :
    ((v.set_size n).1.mFinish = v.get_data_start + n ∧
     (v.set_size n).1.mStart = v.mStart ∧
     (v.set_size n).1.mEndOfStorage = v.mEndOfStorage) ∧
    ((v.set_capacity m).1.mEndOfStorage = v.get_data_start + m ∧
     (v.set_capacity m).1.mStart = v.mStart ∧
     (v.set_capacity m).1.mFinish = v.mFinish) ∧
    ((v.set_data_start p).1.mStart = p ∧
     (v.set_data_start p).1.mFinish = v.mFinish ∧
     (v.set_data_start p).1.mEndOfStorage = v.mEndOfStorage) := by
  exact ⟨⟨rfl, rfl, rfl⟩, ⟨rfl, rfl, rfl⟩, ⟨rfl, rfl, rfl⟩⟩

end Leaky
